import Mathlib

/-!
Verification of the browser-copilot repository: a shallow embedding of the
conversation-orchestration, streaming-relay, message-sender and configuration
code, with theorems checking the natural-language specification against it.

Python strings are modelled as lists of characters (`Str`), Python dicts as
insertion-ordered association lists (`PyDict`), fallible functions return
`Except`/`Option`, and stateful methods are explicit state-passing functions.
-/

/-- Python `str`, modelled as its list of characters. -/
abbrev Str := List Char

namespace PyDict

/-- Python `d[k]` / `d.get(k)`: the value stored under `k`, if any. -/
def get? {K V : Type} [DecidableEq K] : List (K × V) → K → Option V
  | [], _ => none
  | (k', v) :: t, k => if k' = k then some v else get? t k

/-- Python `k in d`. -/
def hasKey {K V : Type} [DecidableEq K] (d : List (K × V)) (k : K) : Bool :=
  (get? d k).isSome

/-- Python `d[k] = v`: replace the value under `k` in place if the key exists,
append the binding otherwise (Python dicts are insertion ordered). -/
def setKey {K V : Type} [DecidableEq K] : List (K × V) → K → V → List (K × V)
  | [], k, v => [(k, v)]
  | (k', v') :: t, k, v =>
    if k' = k then (k', v) :: t else (k', v') :: setKey t k v

/-- Python `del d[k]`: remove the (unique) binding of `k`. -/
def delKey {K V : Type} [DecidableEq K] : List (K × V) → K → List (K × V)
  | [], _ => []
  | (k', v') :: t, k => if k' = k then t else (k', v') :: delKey t k

/-- In-place mutation of the object stored under `k` (`d[k].field = x` in
Python): the binding's value is transformed, all keys are kept. -/
def modifyVal {K V : Type} [DecidableEq K] : List (K × V) → K → (V → V) → List (K × V)
  | [], _, _ => []
  | (k', v') :: t, k, f =>
    if k' = k then (k', f v') :: t else (k', v') :: modifyVal t k f

/-- Python `d.get(k, default)`. -/
def getD {K V : Type} [DecidableEq K] (d : List (K × V)) (k : K) (dflt : V) : V :=
  (get? d k).getD dflt

/-- The key list of the dict, in insertion order (`list(d.keys())`). -/
def keys {K V : Type} (d : List (K × V)) : List K := d.map Prod.fst

end PyDict

/-! ## pydantic_ai message and graph-node model

`pydantic_mcp.py` (and the other modules) manipulate two distinct families of
objects from the agent framework:

* `ModelMessage` values (`ModelRequest` / `ModelResponse`), each carrying a
  list of parts — what `result.all_messages()` returns;
* agent-graph nodes (`UserPromptNode`, `ModelRequestNode`, `CallToolsNode`,
  `End`) — what iterating an `agent.iter(...)` run yields.  A
  `ModelRequestNode` *wraps* a `ModelRequest` in its `request` attribute; it
  is a different class from `ModelRequest`, and no `ModelMessage` value is an
  instance of it.
-/

namespace Messages

/-- `ToolCallPart.args` in pydantic_ai: a JSON string, a dict, or `None`.
Dicts are modelled as string-to-string association lists (only the
`"filename"` entry is ever read by this repository). -/
inductive Args where
  | argsStr (s : Str)
  | argsDict (d : List (Str × Str))
  | argsNone
  deriving DecidableEq, Repr

/-- The message parts used by this repository (`pydantic_ai.messages`). -/
inductive Part where
  | text (content : Str)
  | toolCall (tool_name : Str) (args : Args)
  | toolReturn (tool_name : Str) (content : Str)
  | userPrompt (content : Str)
  | systemPrompt (content : Str)
  deriving DecidableEq, Repr

/-- `isinstance(part, ToolReturnPart)`. -/
def Part.isToolReturnPart : Part → Bool
  | .toolReturn _ _ => true
  | _ => false

/-- `isinstance(part, ToolCallPart)`. -/
def Part.isToolCallPart : Part → Bool
  | .toolCall _ _ => true
  | _ => false

/-- `pydantic_ai.messages.ModelMessage`: a `ModelRequest` or a
`ModelResponse`, each holding its list of parts. -/
inductive ModelMessage where
  | request (parts : List Part)
  | response (parts : List Part)
  deriving DecidableEq, Repr

/-- The `parts` attribute of a `ModelMessage`. -/
def ModelMessage.parts : ModelMessage → List Part
  | .request ps => ps
  | .response ps => ps

/-- Rebuild the message with new parts (`node.parts = processed_parts`). -/
def ModelMessage.withParts : ModelMessage → List Part → ModelMessage
  | .request _, ps => .request ps
  | .response _, ps => .response ps

/-- `isinstance(node, ModelRequestNode)` evaluated on a `ModelMessage`.
`ModelRequestNode` is the pydantic_ai *graph-node* class; the values returned
by `result.all_messages()` are `ModelRequest`/`ModelResponse` message objects
and are never instances of it, so the check is `False` on every
`ModelMessage`. -/
def ModelMessage.isinstanceModelRequestNode (_ : ModelMessage) : Bool := false

end Messages

namespace pydantic_mcp

open Messages

/-- The count in `ConversationAgent.memory_summarizer`:
`sum(sum(1 for part in node.parts if isinstance(part, ToolReturnPart)) for node in nodes)`. -/
def tool_result_count (nodes : List ModelMessage) : Nat :=
  (nodes.map fun node => node.parts.countP Part.isToolReturnPart).sum

/-- The inner `for part in node.request.parts` loop of `memory_summarizer`,
threading `removed_tool_return_count` (first component): each `ToolReturnPart`
bumps the counter, and is kept only when the counter equals
`tool_result_count`; otherwise it is replaced by the placeholder `TextPart`. -/
def processParts (total : Nat) : Nat → List Part → Nat × List Part
  | cnt, [] => (cnt, [])
  | cnt, part :: rest =>
    if part.isToolReturnPart then
      let cnt' := cnt + 1
      let r := processParts total cnt' rest
      if cnt' = total then (r.1, part :: r.2)
      else (r.1, Part.text "Tool return removed for memory reasons".data :: r.2)
    else
      let r := processParts total cnt rest
      (r.1, part :: r.2)

/-- The outer `for node in nodes` loop of `memory_summarizer`: a node is
rewritten only when `isinstance(node, ModelRequestNode)` holds (it never does
for `ModelMessage` values, so the loop body is dead code). -/
def summarizeLoop (total : Nat) : Nat → List ModelMessage → List ModelMessage
  | _, [] => []
  | cnt, node :: rest =>
    if node.isinstanceModelRequestNode then
      let r := processParts total cnt node.parts
      node.withParts r.2 :: summarizeLoop total r.1 rest
    else
      node :: summarizeLoop total cnt rest

/-- `ConversationAgent.memory_summarizer` (pydantic_mcp.py): count the
`ToolReturnPart`s; when more than one, run the replacement loop over the
nodes, else return the input list. -/
def memory_summarizer (nodes : List ModelMessage) : List ModelMessage :=
  if tool_result_count nodes > 1 then summarizeLoop (tool_result_count nodes) 0 nodes
  else nodes

end pydantic_mcp

/-! ## pydantic_mcp: browser-screenshot node processor -/

namespace pydantic_mcp

open Messages

/-- The agent-graph nodes yielded while iterating `agent.iter(...)`
(`pydantic_ai`): a `ModelRequestNode` carries `request.parts`, a
`CallToolsNode` carries `model_response.parts`. -/
inductive GraphNode where
  | userPromptNode (content : Str)
  | modelRequestNode (request_parts : List Part)
  | callToolsNode (model_response_parts : List Part)
  | endNode
  deriving DecidableEq, Repr

/-- `hasattr(node, "model_response")`: of the four run-node classes, only
`CallToolsNode` has a `model_response` attribute. -/
def GraphNode.hasModelResponse : GraphNode → Bool
  | .callToolsNode _ => true
  | _ => false

/-- `node.model_response.parts` (meaningful only when `hasModelResponse`). -/
def GraphNode.modelResponseParts : GraphNode → List Part
  | .callToolsNode ps => ps
  | _ => []

/-- `next((part for part in parts if isinstance(part, ToolCallPart)), None)`:
the first `ToolCallPart`, as its `(tool_name, args)` pair. -/
def firstToolCallPart (parts : List Part) : Option (Str × Args) :=
  parts.findSome? fun p =>
    match p with
    | .toolCall tool_name args => some (tool_name, args)
    | _ => none

/-- The `parsed_args` computation of `nodes_browser_screenshot_processor`:
`json.loads` on a string, the dict itself on a dict, `{}` otherwise.
`json.loads` is the external JSON parser, passed in as a function. -/
def parsedArgsOf (json_loads : Str → List (Str × Str)) : Args → List (Str × Str)
  | .argsStr s => json_loads s
  | .argsDict d => d
  | .argsNone => []

/-- The dict returned by `nodes_browser_screenshot_processor` on a match:
`{"type": "image", "node_type": "ModelRequestNode", "filename": ...}`
(`rtype` stands for the `"type"` entry). -/
structure ProcessorResult where
  rtype : Str
  node_type : Str
  filename : Str
  deriving DecidableEq, Repr

/-- The body of the `for part in current_node.request.parts` loop of
`nodes_browser_screenshot_processor`, for one part: the loop returns at the
first `ToolReturnPart` whose `tool_name` and the previous node's first tool
call's name both equal `"browser_take_screenshot"` (`ptcp` is
`previous_node_tool_call_part`). -/
def stepPartCheck (json_loads : Str → List (Str × Str)) (TEMP_FOLDER : Str)
    (ptcp : Option (Str × Args)) : Messages.Part → Option ProcessorResult
  | .toolReturn tool_name _ =>
    match ptcp with
    | some (prev_name, prev_args) =>
      if tool_name = prev_name ∧ prev_name = "browser_take_screenshot".data then
        some
          { rtype := "image".data
            node_type := "ModelRequestNode".data
            filename := TEMP_FOLDER ++
              '/' :: PyDict.getD (parsedArgsOf json_loads prev_args)
                "filename".data "screenshot.png".data }
      else none
    | none => none
  | _ => none

/-- One iteration of the `for i in range(1, len(nodes))` loop of
`nodes_browser_screenshot_processor`, over the pair `(nodes[i-1], nodes[i])`:
skip unless the current node is a `ModelRequestNode`; take the first
`ToolCallPart` of the previous node's `model_response` parts (empty when it
has no `model_response`); return at the first matching `ToolReturnPart`. -/
def screenshotStep (json_loads : Str → List (Str × Str)) (TEMP_FOLDER : Str)
    (previous_node current_node : GraphNode) : Option ProcessorResult :=
  match current_node with
  | .modelRequestNode request_parts =>
    let previous_node_parts :=
      if previous_node.hasModelResponse then previous_node.modelResponseParts else []
    let previous_node_tool_call_part := firstToolCallPart previous_node_parts
    request_parts.findSome? (stepPartCheck json_loads TEMP_FOLDER previous_node_tool_call_part)
  | _ => none

/-- `ConversationAgent.nodes_browser_screenshot_processor` (pydantic_mcp.py):
scan consecutive node pairs in order and return the first match, `None` when
there is none.  `TEMP_FOLDER` is the `TEMPDIR` environment value (default
`/tmp`) and `json_loads` the external JSON parser, both passed as
parameters. -/
def nodes_browser_screenshot_processor (json_loads : Str → List (Str × Str))
    (TEMP_FOLDER : Str) : List GraphNode → Option ProcessorResult
  | previous_node :: current_node :: rest =>
    match screenshotStep json_loads TEMP_FOLDER previous_node current_node with
    | some r => some r
    | none => nodes_browser_screenshot_processor json_loads TEMP_FOLDER (current_node :: rest)
  | _ => none

/-- The spec-side condition on an adjacent node pair, together with the args
of the previous node's first `ToolCallPart`: the current node is a
`ModelRequestNode` containing a `ToolReturnPart` named
`browser_take_screenshot`, and the previous node's `model_response` has a
first `ToolCallPart` with the same name, carrying `args`. -/
def ScreenshotPairArgs (previous_node current_node : GraphNode) (args : Args) : Prop :=
  (∃ request_parts, current_node = .modelRequestNode request_parts
      ∧ ∃ content,
          Messages.Part.toolReturn "browser_take_screenshot".data content ∈ request_parts)
    ∧ firstToolCallPart
        (if previous_node.hasModelResponse then previous_node.modelResponseParts else [])
        = some ("browser_take_screenshot".data, args)

/-- The spec-side condition on an adjacent node pair. -/
def ScreenshotPair (previous_node current_node : GraphNode) : Prop :=
  ∃ args, ScreenshotPairArgs previous_node current_node args

/-- The claimed result dict for tool-call args `args`. -/
def expectedResult (json_loads : Str → List (Str × Str)) (TEMP_FOLDER : Str)
    (args : Args) : ProcessorResult :=
  { rtype := "image".data
    node_type := "ModelRequestNode".data
    filename := TEMP_FOLDER ++
      '/' :: PyDict.getD (parsedArgsOf json_loads args)
        "filename".data "screenshot.png".data }

end pydantic_mcp

/-! ## browser_copilot: SSE streaming relay (conversation.py + api/sse.py) -/

namespace browser_copilot

/-- The dicts `SSEMessageSender` puts on its response queue:
`{"text": ...}` or `{"image": {"file_path": ..., "description": ...}}`. -/
inductive SSEItem where
  | textItem (text : Str)
  | imageItem (file_path : Str) (description : Str)
  deriving DecidableEq, Repr

/-- `SSEMessageSender.send_text_chunk` (api/sse.py): queue the chunk as a
`{"text": text_chunk}` item. -/
def SSEMessageSender.send_text_chunk (text_chunk : Str) : List SSEItem :=
  [.textItem text_chunk]

/-- `SSEMessageSender.send_text` (api/sse.py): queue `{"text": text}`. -/
def SSEMessageSender.send_text (text : Str) : List SSEItem :=
  [.textItem text]

/-- The `async for accumulated_text in result.stream()` loop of
`ConversationAgent.run_query` (agents/conversation.py): `accs` is the
sequence of accumulated texts yielded by the stream, the `Nat` state is
`last_sent_length`; the result lists the chunks passed to `send_text_chunk`,
in order.  A chunk — the accumulated text past `last_sent_length` — is sent
exactly when `len(accumulated_text) > last_sent_length`, and
`last_sent_length` is then set to `len(accumulated_text)`. -/
def relayChunks : Nat → List Str → List Str
  | _, [] => []
  | last_sent_length, accumulated_text :: rest =>
    if last_sent_length < accumulated_text.length then
      accumulated_text.drop last_sent_length :: relayChunks accumulated_text.length rest
    else relayChunks last_sent_length rest

/-- The final value of `last_sent_length` after the loop. -/
def relayLast : Nat → List Str → Nat
  | s, [] => s
  | s, accumulated_text :: rest =>
    if s < accumulated_text.length then relayLast accumulated_text.length rest
    else relayLast s rest

/-- The SSE queue items produced by one `run_query` streaming loop. -/
def run_query_queue (accs : List Str) : List SSEItem :=
  (relayChunks 0 accs).flatMap SSEMessageSender.send_text_chunk

/-- Total length of the chunks sent. -/
def sumLens (l : List Str) : Nat := (l.map List.length).sum

/-- `isInitB a b`: `a` is an initial segment of `b` (b extends a by
appending characters). -/
def isInitB : Str → Str → Bool
  | [], _ => true
  | _ :: _, [] => false
  | a :: as, b :: bs => a == b && isInitB as bs

/-- `chainFrom prev l`: every element of `l` extends its predecessor
(starting from `prev`) by appending characters. -/
def chainFrom : Str → List Str → Bool
  | _, [] => true
  | prev, b :: rest => isInitB prev b && chainFrom b rest

end browser_copilot

/-! ## Per-session agent maps (telegram_bot.py, grpc_server.py, rest_server.py) -/

/-- A `ConversationAgent` instance, identified by its construction number, so
that "newly constructed" and "the identical stored agent" are expressible. -/
structure ConversationAgent where
  id : Nat
  deriving DecidableEq, Repr

namespace telegram_bot

/-- The `TelegramBot` state touched by `get_or_create_agent`: the `agents`
dict keyed by chat id (`__init__` starts it empty), plus a counter supplying
fresh `ConversationAgent` identities. -/
structure TelegramBot where
  agents : List (Int × ConversationAgent)
  nextId : Nat
  deriving DecidableEq, Repr

/-- `TelegramBot.__init__`: the agents dict starts empty. -/
def TelegramBot.init : TelegramBot := { agents := [], nextId := 0 }

/-- `TelegramBot.get_or_create_agent`: when `chat_id not in self.agents`,
construct a new agent and store it under the key; return
`self.agents[chat_id]`. -/
def get_or_create_agent (self : TelegramBot) (chat_id : Int) :
    Option ConversationAgent × TelegramBot :=
  let st :=
    if !PyDict.hasKey self.agents chat_id then
      { agents := PyDict.setKey self.agents chat_id ⟨self.nextId⟩
        nextId := self.nextId + 1 }
    else self
  (PyDict.get? st.agents chat_id, st)

end telegram_bot

namespace grpc_server

/-- A `GrpcMessageSender` object: its identity and its mutable
`response_queue` attribute (queues are modelled by numeric handles). -/
structure GrpcMessageSender where
  id : Nat
  response_queue : Nat
  deriving DecidableEq, Repr

/-- The `BrowserCopilotServicer` state: `agents` and `message_senders` keyed
by session id (both empty after `__init__`), plus the freshness counter. -/
structure BrowserCopilotServicer where
  agents : List (Str × ConversationAgent)
  message_senders : List (Str × GrpcMessageSender)
  nextId : Nat
  deriving DecidableEq, Repr

/-- `BrowserCopilotServicer.__init__`: both dicts start empty. -/
def BrowserCopilotServicer.init : BrowserCopilotServicer :=
  { agents := [], message_senders := [], nextId := 0 }

/-- `BrowserCopilotServicer._get_or_create_agent`: on a missing key construct
a sender and an agent and store both; otherwise update the stored sender's
`response_queue` in place; return `self.agents[session_id]`. -/
def _get_or_create_agent (self : BrowserCopilotServicer) (session_id : Str)
    (response_queue : Nat) : Option ConversationAgent × BrowserCopilotServicer :=
  let st :=
    if !PyDict.hasKey self.agents session_id then
      { agents := PyDict.setKey self.agents session_id ⟨self.nextId⟩
        message_senders := PyDict.setKey self.message_senders session_id
          ⟨self.nextId, response_queue⟩
        nextId := self.nextId + 1 }
    else
      { self with
        message_senders :=
          PyDict.modifyVal self.message_senders session_id
            (fun s => { s with response_queue := response_queue }) }
  (PyDict.get? st.agents session_id, st)

/-- `BrowserCopilotServicer.cleanup_session`: when the session has an agent,
delete it, and delete the message sender if present. -/
def cleanup_session (self : BrowserCopilotServicer) (session_id : Str) :
    BrowserCopilotServicer :=
  if PyDict.hasKey self.agents session_id then
    { self with
      agents := PyDict.delKey self.agents session_id
      message_senders :=
        if PyDict.hasKey self.message_senders session_id then
          PyDict.delKey self.message_senders session_id
        else self.message_senders }
  else self

end grpc_server

namespace rest_server

/-- An `SSEMessageSender` object held by the REST server: its identity and
its mutable `response_queue` attribute. -/
structure SSEMessageSender where
  id : Nat
  response_queue : Nat
  deriving DecidableEq, Repr

/-- The `RestServer` state: `agents` and `message_senders` keyed by session
id (both empty after `__init__`), plus the freshness counter. -/
structure RestServer where
  agents : List (Str × ConversationAgent)
  message_senders : List (Str × SSEMessageSender)
  nextId : Nat
  deriving DecidableEq, Repr

/-- `RestServer.__init__`: both dicts start empty. -/
def RestServer.init : RestServer :=
  { agents := [], message_senders := [], nextId := 0 }

/-- `RestServer._get_or_create_agent`: same logic as the gRPC servicer, with
an SSE message sender. -/
def _get_or_create_agent (self : RestServer) (session_id : Str)
    (response_queue : Nat) : Option ConversationAgent × RestServer :=
  let st :=
    if !PyDict.hasKey self.agents session_id then
      { agents := PyDict.setKey self.agents session_id ⟨self.nextId⟩
        message_senders := PyDict.setKey self.message_senders session_id
          ⟨self.nextId, response_queue⟩
        nextId := self.nextId + 1 }
    else
      { self with
        message_senders :=
          PyDict.modifyVal self.message_senders session_id
            (fun s => { s with response_queue := response_queue }) }
  (PyDict.get? st.agents session_id, st)

/-- `RestServer.cleanup_session`: when the session has an agent, delete it,
and delete the message sender if present. -/
def cleanup_session (self : RestServer) (session_id : Str) : RestServer :=
  if PyDict.hasKey self.agents session_id then
    { self with
      agents := PyDict.delKey self.agents session_id
      message_senders :=
        if PyDict.hasKey self.message_senders session_id then
          PyDict.delKey self.message_senders session_id
        else self.message_senders }
  else self

end rest_server

/-! ## Python string helpers: `str.split`, `str.join`, `os.path.basename` -/

namespace pystr

/-- Python `s.split(sep)` for a one-character separator: split at every
occurrence, keeping empty pieces (`"".split(sep) == [""]`). -/
def pySplitChar (sep : Char) : Str → List Str
  | [] => [[]]
  | c :: rest =>
    match pySplitChar sep rest with
    | [] => [[c]]
    | h :: t => if c = sep then [] :: h :: t else (c :: h) :: t

/-- Python `"/".join(parts)`. -/
def joinWithSlash : List Str → Str
  | [] => []
  | [x] => x
  | x :: y :: t => x ++ '/' :: joinWithSlash (y :: t)

/-- `os.path.basename` (POSIX): everything after the last `/`. -/
def os_path_basename (p : Str) : Str := (pySplitChar '/' p).getLastD p

end pystr

/-! ## Message senders (grpc_message_sender.py, api/sse.py, telegram_message_sender.py) -/

namespace telegram_message_sender

/-- The MarkdownV2 character class of `_escape_markdown_v2`:
`escape_chars = r"_*[]()~`>#+-=|{}.!"`. -/
def escape_chars : Str := "_*[]()~`>#+-=|{}.!".data

/-- Membership in the regex character class `[_*\[\]()~\`>#+\-=|{}.!]`. -/
def isEscapeChar (c : Char) : Bool := escape_chars.contains c

/-- `TelegramMessageSender._escape_markdown_v2`: the `re.sub` replaces each
occurrence of a class character by a backslash followed by the character and
copies every other character. -/
def _escape_markdown_v2 (text : Str) : Str :=
  text.flatMap fun c => if isEscapeChar c then ['\\', c] else [c]

/-- Deleting the inserted backslashes: drop a backslash that immediately
precedes a class character. -/
def stripEscapes : Str → Str
  | [] => []
  | [c] => [c]
  | a :: c :: rest =>
    if a = '\\' ∧ isEscapeChar c then c :: stripEscapes rest
    else a :: stripEscapes (c :: rest)

/-- Calls made to the Telegram Bot API by the sender. -/
inductive TgCall where
  | send_photo (photo : Str)
  | send_message (text : Str) (parse_mode : Option Str)
  deriving DecidableEq, Repr

/-- `TelegramMessageSender.send_text`: escape the text for MarkdownV2 and
send it with `parse_mode="MarkdownV2"` (the exception fallback that resends
without markdown is not modelled). -/
def send_text (text : Str) : List TgCall :=
  [.send_message (_escape_markdown_v2 text) (some "MarkdownV2".data)]

/-- `TelegramMessageSender.send_image`: send the photo when the file exists,
otherwise fall back to `send_text` with the warning text.  `fs` models
`os.path.exists`. -/
def send_image (fs : Str → Bool) (image_path : Str) : List TgCall :=
  if fs image_path then [.send_photo image_path]
  else send_text ("⚠️ Image was generated but file not found: ".data ++ image_path)

end telegram_message_sender

namespace grpc_message_sender

/-- The dicts `GrpcMessageSender` puts on its response queue. -/
inductive GrpcItem where
  | textItem (text : Str)
  | imageItem (file_path : Str) (description : Str)
  deriving DecidableEq, Repr

/-- `GrpcMessageSender.send_text`: queue `{"text": text}`. -/
def send_text (text : Str) : List GrpcItem := [.textItem text]

/-- `GrpcMessageSender.send_image`: queue the image dict (with the
`Image: basename` description) when the file exists, otherwise fall back to
`send_text` with the warning text.  `fs` models `os.path.exists`. -/
def send_image (fs : Str → Bool) (image_path : Str) : List GrpcItem :=
  if fs image_path then
    [.imageItem image_path ("Image: ".data ++ pystr.os_path_basename image_path)]
  else
    send_text ("⚠️ Image was generated but file not found: ".data ++ image_path)

end grpc_message_sender

namespace browser_copilot

/-- `SSEMessageSender.send_image` (api/sse.py): queue the image dict when the
file exists, otherwise fall back to `send_text` with the warning text. -/
def SSEMessageSender.send_image (fs : Str → Bool) (image_path : Str) : List SSEItem :=
  if fs image_path then
    [.imageItem image_path ("Image: ".data ++ pystr.os_path_basename image_path)]
  else
    SSEMessageSender.send_text
      ("⚠️ Image was generated but file not found: ".data ++ image_path)

end browser_copilot

/-! ## Browser interaction agent (browser_interaction_agent.py) -/

namespace browser_interaction_agent

/-- The `BrowserInteractionAgent` as used by `execute_goal_step`: `agent` is
`None` when not initialised, else one agent run, a function from the step
prompt and the usage value to `agent_run.result.output` (`none` when the run
has no result or the result has no output). -/
structure BrowserInteractionAgent (U : Type) where
  agent : Option (Str → U → Option Str)

/-- The `step_prompt` f-string of `execute_goal_step`. -/
def step_prompt (goal : Str) : Str :=
  "Goal: ".data ++ goal
    ++ "\n\nExecute the next appropriate step towards completing this goal.".data

/-- `BrowserInteractionAgent.execute_goal_step`: refuse when the agent is not
initialised; run the agent on the step prompt; return the run's output when
`agent_run.result and agent_run.result.output` is truthy (a `None` result,
`None` output, or empty-string output is falsy), else the fixed
`No result from browser interaction` text. -/
def execute_goal_step {U : Type} (self : BrowserInteractionAgent U)
    (goal : Str) (usage : U) : Str :=
  match self.agent with
  | none => "Failed to execute browser task: Agent not initialized".data
  | some run =>
    match run (step_prompt goal) usage with
    | some output =>
      if output = [] then "No result from browser interaction".data else output
    | none => "No result from browser interaction".data

/-- `BrowserInteractionAgent.execute_browser_task`: delegates to
`execute_goal_step`. -/
def execute_browser_task {U : Type} (self : BrowserInteractionAgent U)
    (task : Str) (usage : U) : Str :=
  execute_goal_step self task usage

end browser_interaction_agent

/-! ## Model configuration (model_config.py) -/

namespace model_config

/-- The models `get_model` can build (`provider_to_model_creator`):
`OpenAIModel` over `OpenRouterProvider`, `GeminiModel` over
`GoogleGLAProvider`, `AnthropicModel` over `AnthropicProvider`. -/
inductive BuiltModel where
  | openAIModel (model_name : Str)
  | geminiModel (model_name : Str)
  | anthropicModel (model_name : Str)
  deriving DecidableEq, Repr

/-- `get_model` (model_config.py): split the full name on `/`; fewer than two
parts raises `ValueError("Invalid model name format: ...")`; the first part
picks the provider and the remaining parts re-joined with `/` form the model
name; a provider outside the creator dict raises
`ValueError("Unknown provider: ...")`.  Raised `ValueError`s are modelled as
`Except.error` carrying the message. -/
def get_model (full_model_name : Str) : Except Str BuiltModel :=
  let model_parts := pystr.pySplitChar '/' full_model_name
  if model_parts.length < 2 then
    .error ("Invalid model name format: ".data ++ full_model_name
      ++ ". Expected format: 'provider/model_name'.".data)
  else
    let provider := model_parts.headD []
    let model_name := pystr.joinWithSlash model_parts.tail
    if provider = "openrouter".data then .ok (.openAIModel model_name)
    else if provider = "google".data then .ok (.geminiModel model_name)
    else if provider = "anthropic".data then .ok (.anthropicModel model_name)
    else .error ("Unknown provider: ".data ++ provider)

end model_config

/-! ## Theorems -/

namespace pydantic_mcp

open Messages

/-- The replacement loop never fires on `ModelMessage` values, because
`isinstance(node, ModelRequestNode)` is false for every message object. -/
theorem summarizeLoop_eq_self (total cnt : Nat) (nodes : List ModelMessage) :
    summarizeLoop total cnt nodes = nodes := by
  induction nodes with
  | nil => rfl
  | cons node rest ih =>
    simp [summarizeLoop, ModelMessage.isinstanceModelRequestNode, ih]

/-- `memory_summarizer` returns its input unchanged, whatever the history. -/
theorem memory_summarizer_eq_self (nodes : List ModelMessage) :
    memory_summarizer nodes = nodes := by
  unfold memory_summarizer
  split <;> simp [summarizeLoop_eq_self]

/-- C1: the spec claims that on a history with more than one `ToolReturnPart`
`memory_summarizer` keeps only the last one and replaces every earlier one
with the placeholder `TextPart`.  The code cannot do this: its replacement
loop guards on `isinstance(node, ModelRequestNode)`, the *graph-node* class,
while the nodes are `ModelMessage` objects, so the history comes back
unchanged.  Here a two-`ToolReturnPart` history is returned verbatim, still
holding two `ToolReturnPart`s and no placeholder text part. -/
theorem C1_memory_summarizer_noop_on_duplicates :
    memory_summarizer
      [ .request [.toolReturn "browser_click".data "clicked".data],
        .request [.toolReturn "browser_click".data "clicked again".data] ]
      = [ .request [.toolReturn "browser_click".data "clicked".data],
          .request [.toolReturn "browser_click".data "clicked again".data] ]
    ∧ tool_result_count
        (memory_summarizer
          [ .request [.toolReturn "browser_click".data "clicked".data],
            .request [.toolReturn "browser_click".data "clicked again".data] ]) = 2 := by
  constructor
  · decide
  · decide

/-- C7: `memory_summarizer` preserves the number of messages and the number
of parts in each message, leaves every part that is not a `ToolReturnPart`
unchanged, and returns a history with at most one `ToolReturnPart` entirely
unchanged. -/
theorem C7_memory_summarizer_frame (nodes : List ModelMessage) :
    (memory_summarizer nodes).length = nodes.length
    ∧ List.Forall₂
        (fun m m' => m.parts.length = m'.parts.length
          ∧ List.Forall₂ (fun p p' => p.isToolReturnPart = false → p' = p) m.parts m'.parts)
        nodes (memory_summarizer nodes)
    ∧ (tool_result_count nodes ≤ 1 → memory_summarizer nodes = nodes) := by
  rw [memory_summarizer_eq_self]
  refine ⟨rfl, ?_, fun _ => rfl⟩
  exact List.forall₂_same.mpr fun m _ => ⟨rfl, List.forall₂_same.mpr fun p _ _ => rfl⟩

/-- Witness for C7 at a concrete one-`ToolReturnPart` history. -/
theorem C7_memory_summarizer_frame_witness :
    memory_summarizer
      [ModelMessage.request [Part.toolReturn "t".data "r".data, Part.text "x".data]]
      = [ModelMessage.request [Part.toolReturn "t".data "r".data, Part.text "x".data]] :=
  (C7_memory_summarizer_frame
    [ModelMessage.request [Part.toolReturn "t".data "r".data, Part.text "x".data]]).2.2
    (by decide)

theorem stepPartCheck_eq_some {json_loads : Str → List (Str × Str)} {TEMP_FOLDER : Str}
    {ptcp : Option (Str × Args)} {part : Messages.Part} {r : ProcessorResult}
    (h : stepPartCheck json_loads TEMP_FOLDER ptcp part = some r) :
    ∃ tool_name content prev_args,
      part = Messages.Part.toolReturn tool_name content
      ∧ ptcp = some (tool_name, prev_args)
      ∧ tool_name = "browser_take_screenshot".data
      ∧ r = expectedResult json_loads TEMP_FOLDER prev_args := by
  cases part with
  | toolReturn tn c =>
    cases ptcp with
    | none => simp [stepPartCheck] at h
    | some pr =>
      obtain ⟨pn, pa⟩ := pr
      by_cases hc : tn = pn ∧ pn = "browser_take_screenshot".data
      · obtain ⟨h1, h2⟩ := hc
        simp only [stepPartCheck, if_pos (And.intro h1 h2)] at h
        cases h
        exact ⟨tn, c, pa, rfl, by rw [h1], h1.trans h2, rfl⟩
      · simp [stepPartCheck, if_neg hc] at h
  | text c => simp [stepPartCheck] at h
  | toolCall tn a => simp [stepPartCheck] at h
  | userPrompt c => simp [stepPartCheck] at h
  | systemPrompt c => simp [stepPartCheck] at h

theorem stepPartCheck_pos (json_loads : Str → List (Str × Str)) (TEMP_FOLDER : Str)
    (args : Args) (content : Str) :
    (stepPartCheck json_loads TEMP_FOLDER
      (some ("browser_take_screenshot".data, args))
      (Messages.Part.toolReturn "browser_take_screenshot".data content)).isSome := by
  simp [stepPartCheck]

/-- A successful step yields exactly the claimed dict and certifies the pair
condition. -/
theorem screenshotStep_eq_some {json_loads : Str → List (Str × Str)} {TEMP_FOLDER : Str}
    {prev cur : GraphNode} {r : ProcessorResult}
    (h : screenshotStep json_loads TEMP_FOLDER prev cur = some r) :
    ∃ args, ScreenshotPairArgs prev cur args
      ∧ r = expectedResult json_loads TEMP_FOLDER args := by
  cases cur with
  | modelRequestNode request_parts =>
    simp only [screenshotStep] at h
    obtain ⟨part, hmem, hpart⟩ := List.exists_of_findSome?_eq_some h
    obtain ⟨tn, c, pa, hp1, hp2, hp3, hp4⟩ := stepPartCheck_eq_some hpart
    subst hp1
    subst hp3
    exact ⟨pa, ⟨⟨request_parts, rfl, c, hmem⟩, hp2⟩, hp4⟩
  | userPromptNode c => simp [screenshotStep] at h
  | callToolsNode ps => simp [screenshotStep] at h
  | endNode => simp [screenshotStep] at h

/-- A pair satisfying the condition makes the step succeed. -/
theorem screenshotStep_isSome_of_pair (json_loads : Str → List (Str × Str))
    (TEMP_FOLDER : Str) {prev cur : GraphNode} (h : ScreenshotPair prev cur) :
    (screenshotStep json_loads TEMP_FOLDER prev cur).isSome := by
  obtain ⟨args, ⟨⟨request_parts, hcur, c, hmem⟩, hfc⟩⟩ := h
  subst hcur
  simp only [screenshotStep, List.findSome?_isSome_iff]
  refine ⟨_, hmem, ?_⟩
  rw [hfc]
  exact stepPartCheck_pos json_loads TEMP_FOLDER args c

theorem processor_eq_some {json_loads : Str → List (Str × Str)} {TEMP_FOLDER : Str}
    {nodes : List GraphNode} {r : ProcessorResult}
    (h : nodes_browser_screenshot_processor json_loads TEMP_FOLDER nodes = some r) :
    ∃ pre prev cur suf args, nodes = pre ++ prev :: cur :: suf
      ∧ ScreenshotPairArgs prev cur args
      ∧ r = expectedResult json_loads TEMP_FOLDER args := by
  induction nodes with
  | nil => simp [nodes_browser_screenshot_processor] at h
  | cons a tail ih =>
    cases tail with
    | nil => simp [nodes_browser_screenshot_processor] at h
    | cons b rest =>
      simp only [nodes_browser_screenshot_processor] at h
      cases hs : screenshotStep json_loads TEMP_FOLDER a b with
      | some r0 =>
        rw [hs] at h
        cases h
        obtain ⟨args, hpair, hval⟩ := screenshotStep_eq_some hs
        exact ⟨[], a, b, rest, args, rfl, hpair, hval⟩
      | none =>
        rw [hs] at h
        obtain ⟨pre, prev, cur, suf, args, hsplit, hpair, hval⟩ := ih h
        exact ⟨a :: pre, prev, cur, suf, args, by rw [List.cons_append, ← hsplit], hpair, hval⟩

theorem processor_isSome_of_pair (json_loads : Str → List (Str × Str)) (TEMP_FOLDER : Str)
    (pre suf : List GraphNode) {prev cur : GraphNode} (hpair : ScreenshotPair prev cur) :
    (nodes_browser_screenshot_processor json_loads TEMP_FOLDER
      (pre ++ prev :: cur :: suf)).isSome := by
  induction pre with
  | nil =>
    simp only [List.nil_append, nodes_browser_screenshot_processor]
    cases hs : screenshotStep json_loads TEMP_FOLDER prev cur with
    | some r0 => simp
    | none =>
      have := screenshotStep_isSome_of_pair json_loads TEMP_FOLDER hpair
      rw [hs] at this
      simp at this
  | cons a pre' ih =>
    cases hX : pre' ++ prev :: cur :: suf with
    | nil => simp at hX
    | cons b rest =>
      rw [List.cons_append, hX]
      simp only [nodes_browser_screenshot_processor]
      cases hs : screenshotStep json_loads TEMP_FOLDER a b with
      | some r0 => simp
      | none =>
        rw [← hX]
        exact ih

/-- C4: `nodes_browser_screenshot_processor` returns a non-`None` value iff
some node at index `i ≥ 1` is a `ModelRequestNode` containing a
`ToolReturnPart` named `browser_take_screenshot` whose immediately preceding
node has a `model_response` whose first `ToolCallPart` is also named
`browser_take_screenshot`; in that case the value is
`{"type": "image", "node_type": "ModelRequestNode", "filename": f}` with `f`
equal to `TEMP_FOLDER` joined to the `"filename"` entry of the tool call's
args (parsed by `json_loads` when the args are a string), default
`screenshot.png`; otherwise `None`. -/
theorem C4_nodes_browser_screenshot_processor
    (json_loads : Str → List (Str × Str)) (TEMP_FOLDER : Str) (nodes : List GraphNode) :
    ((nodes_browser_screenshot_processor json_loads TEMP_FOLDER nodes).isSome
       ↔ ∃ pre prev cur suf, nodes = pre ++ prev :: cur :: suf ∧ ScreenshotPair prev cur)
    ∧ ∀ r, nodes_browser_screenshot_processor json_loads TEMP_FOLDER nodes = some r →
        ∃ pre prev cur suf args, nodes = pre ++ prev :: cur :: suf
          ∧ ScreenshotPairArgs prev cur args
          ∧ r = expectedResult json_loads TEMP_FOLDER args := by
  constructor
  · constructor
    · intro h
      obtain ⟨r, hr⟩ := Option.isSome_iff_exists.mp h
      obtain ⟨pre, prev, cur, suf, args, hsplit, hpair, _⟩ := processor_eq_some hr
      exact ⟨pre, prev, cur, suf, hsplit, args, hpair⟩
    · rintro ⟨pre, prev, cur, suf, hsplit, hpair⟩
      rw [hsplit]
      exact processor_isSome_of_pair json_loads TEMP_FOLDER pre suf hpair
  · intro r hr
    exact processor_eq_some hr

/-- Witness for C4 on a concrete screenshot tool-call/tool-return node pair. -/
theorem C4_nodes_browser_screenshot_processor_witness :
    ∃ pre prev cur suf args,
      ([ GraphNode.callToolsNode
           [Messages.Part.toolCall "browser_take_screenshot".data
             (Messages.Args.argsDict [("filename".data, "shot1.png".data)])],
         GraphNode.modelRequestNode
           [Messages.Part.toolReturn "browser_take_screenshot".data "ok".data] ]
        : List GraphNode) = pre ++ prev :: cur :: suf
      ∧ ScreenshotPairArgs prev cur args
      ∧ ({ rtype := "image".data
           node_type := "ModelRequestNode".data
           filename := "/tmp/shot1.png".data } : ProcessorResult)
        = expectedResult (fun _ => []) "/tmp".data args :=
  (C4_nodes_browser_screenshot_processor (fun _ => []) "/tmp".data
    [ GraphNode.callToolsNode
        [Messages.Part.toolCall "browser_take_screenshot".data
          (Messages.Args.argsDict [("filename".data, "shot1.png".data)])],
      GraphNode.modelRequestNode
        [Messages.Part.toolReturn "browser_take_screenshot".data "ok".data] ]).2
    { rtype := "image".data
      node_type := "ModelRequestNode".data
      filename := "/tmp/shot1.png".data }
    (by rfl)

end pydantic_mcp

namespace browser_copilot

theorem isInitB_append {a b : Str} (h : isInitB a b = true) :
    a ++ b.drop a.length = b := by
  induction a generalizing b with
  | nil => simp
  | cons x as ih =>
    cases b with
    | nil => simp [isInitB] at h
    | cons y bs =>
      simp only [isInitB, Bool.and_eq_true, beq_iff_eq] at h
      obtain ⟨rfl, h2⟩ := h
      simpa using ih h2

theorem isInitB_eq_of_le {a b : Str} (h : isInitB a b = true)
    (hle : b.length ≤ a.length) : a = b := by
  induction a generalizing b with
  | nil => cases b with
    | nil => rfl
    | cons y bs => simp at hle
  | cons x as ih =>
    cases b with
    | nil => simp [isInitB] at h
    | cons y bs =>
      simp only [isInitB, Bool.and_eq_true, beq_iff_eq] at h
      obtain ⟨rfl, h2⟩ := h
      simp only [List.length_cons, Nat.add_le_add_iff_right] at hle
      rw [ih h2 hle]

/-- Under the prefix-chain condition, the loop starting from an already-sent
text `prev` sends exactly the rest of the final accumulated text. -/
theorem relay_concat {l : List Str} {prev : Str} (h : chainFrom prev l = true) :
    prev ++ (relayChunks prev.length l).flatten = l.getLastD prev := by
  induction l generalizing prev with
  | nil => simp [relayChunks]
  | cons a rest ih =>
    simp only [chainFrom, Bool.and_eq_true] at h
    obtain ⟨hinit, hchain⟩ := h
    rw [List.getLastD_cons]
    simp only [relayChunks]
    by_cases hlt : prev.length < a.length
    · rw [if_pos hlt]
      rw [List.flatten_cons, ← List.append_assoc, isInitB_append hinit]
      exact ih hchain
    · rw [if_neg hlt]
      have ha : prev = a := isInitB_eq_of_le hinit (Nat.le_of_not_lt hlt)
      subst ha
      exact ih hchain

/-- `last_sent_length` always equals its initial value plus the total length
of the chunks sent so far. -/
theorem relay_sent_total (l : List Str) (s : Nat) :
    sumLens (relayChunks s l) + s = relayLast s l := by
  induction l generalizing s with
  | nil => simp [relayChunks, relayLast, sumLens]
  | cons a rest ih =>
    simp only [relayChunks, relayLast]
    by_cases h : s < a.length
    · rw [if_pos h, if_pos h]
      simp only [sumLens, List.map_cons, List.sum_cons, List.length_drop]
      have := ih a.length
      simp only [sumLens] at this
      omega
    · rw [if_neg h, if_neg h]
      exact ih s

/-- C2: in the SSE `run_query` streaming relay, a chunk is passed to
`send_text_chunk` only when the accumulated text is strictly longer than
`last_sent_length` — which always equals the total length already sent — and
when every accumulated value extends the previous one by appending
characters, the concatenation of all chunks sent equals the final
accumulated text. -/
theorem C2_run_query_streaming_relay :
    (∀ last_sent_length accumulated_text rest,
        ¬ last_sent_length < List.length accumulated_text →
        relayChunks last_sent_length (accumulated_text :: rest)
          = relayChunks last_sent_length rest)
    ∧ (∀ last_sent_length accumulated_text rest,
        last_sent_length < List.length accumulated_text →
        relayChunks last_sent_length (accumulated_text :: rest)
          = accumulated_text.drop last_sent_length
              :: relayChunks (List.length accumulated_text) rest)
    ∧ (∀ s accs, sumLens (relayChunks s accs) + s = relayLast s accs)
    ∧ (∀ accs, chainFrom [] accs = true →
        (relayChunks 0 accs).flatten = accs.getLastD [])
    ∧ (∀ accs, run_query_queue accs = (relayChunks 0 accs).map SSEItem.textItem) := by
  refine ⟨?_, ?_, fun s accs => relay_sent_total accs s, ?_, ?_⟩
  · intro s a rest h
    simp only [relayChunks, if_neg h]
  · intro s a rest h
    simp only [relayChunks, if_pos h]
  · intro accs h
    simpa using @relay_concat accs [] h
  · intro accs
    simp [run_query_queue, SSEMessageSender.send_text_chunk, List.flatMap]
    induction relayChunks 0 accs with
    | nil => rfl
    | cons c cs ih => simp [SSEMessageSender.send_text_chunk, List.flatten, ih]

/-- Witness for C2 on the concrete accumulated stream a, ab, abc. -/
theorem C2_run_query_streaming_relay_witness :
    (relayChunks 0 ["a".data, "ab".data, "abc".data]).flatten
      = ["a".data, "ab".data, "abc".data].getLastD [] :=
  C2_run_query_streaming_relay.2.2.2.1 ["a".data, "ab".data, "abc".data] (by decide)

end browser_copilot

namespace PyDict

theorem get?_setKey_self {K V : Type} [DecidableEq K] (d : List (K × V)) (k : K) (v : V) :
    get? (setKey d k v) k = some v := by
  induction d with
  | nil => simp [setKey, get?]
  | cons p t ih =>
    obtain ⟨k0, v0⟩ := p
    by_cases h : k0 = k
    · subst h; simp [setKey, get?]
    · simp [setKey, get?, h, ih]

theorem get?_setKey_ne {K V : Type} [DecidableEq K] (d : List (K × V)) {k k' : K}
    (h : k ≠ k') (v : V) : get? (setKey d k v) k' = get? d k' := by
  induction d with
  | nil => simp [setKey, get?, h]
  | cons p t ih =>
    obtain ⟨k0, v0⟩ := p
    by_cases h0 : k0 = k
    · subst h0; simp [setKey, get?, h]
    · simp [setKey, get?, h0, ih]

theorem hasKey_false_get? {K V : Type} [DecidableEq K] {d : List (K × V)} {k : K}
    (h : hasKey d k = false) : get? d k = none := by
  rw [hasKey] at h
  exact Option.not_isSome_iff_eq_none.mp (by simp [h])

theorem keys_setKey_congr {K V W : Type} [DecidableEq K]
    {d1 : List (K × V)} {d2 : List (K × W)} (h : keys d1 = keys d2)
    (k : K) (v : V) (w : W) : keys (setKey d1 k v) = keys (setKey d2 k w) := by
  induction d1 generalizing d2 with
  | nil =>
    cases d2 with
    | nil => simp [setKey, keys]
    | cons q t2 => simp [keys] at h
  | cons p t1 ih =>
    cases d2 with
    | nil => simp [keys] at h
    | cons q t2 =>
      obtain ⟨k1, v1⟩ := p
      obtain ⟨k2, w2⟩ := q
      simp only [keys, List.map_cons, List.cons.injEq] at h
      obtain ⟨rfl, ht⟩ := h
      by_cases hk : k1 = k
      · simp [setKey, hk, keys, ht]
      · simp only [setKey, if_neg hk, keys, List.map_cons, List.cons.injEq]
        exact ⟨trivial, ih ht⟩

theorem keys_delKey_congr {K V W : Type} [DecidableEq K]
    {d1 : List (K × V)} {d2 : List (K × W)} (h : keys d1 = keys d2)
    (k : K) : keys (delKey d1 k) = keys (delKey d2 k) := by
  induction d1 generalizing d2 with
  | nil =>
    cases d2 with
    | nil => simp [delKey, keys]
    | cons q t2 => simp [keys] at h
  | cons p t1 ih =>
    cases d2 with
    | nil => simp [keys] at h
    | cons q t2 =>
      obtain ⟨k1, v1⟩ := p
      obtain ⟨k2, w2⟩ := q
      simp only [keys, List.map_cons, List.cons.injEq] at h
      obtain ⟨rfl, ht⟩ := h
      by_cases hk : k1 = k
      · simpa [delKey, hk] using ht
      · simp only [delKey, if_neg hk, keys, List.map_cons, List.cons.injEq]
        exact ⟨trivial, ih ht⟩

theorem keys_modifyVal {K V : Type} [DecidableEq K]
    (d : List (K × V)) (k : K) (f : V → V) : keys (modifyVal d k f) = keys d := by
  induction d with
  | nil => simp [modifyVal]
  | cons p t ih =>
    obtain ⟨k0, v0⟩ := p
    by_cases h : k0 = k
    · simp [modifyVal, h, keys]
    · simp only [modifyVal, if_neg h, keys, List.map_cons, List.cons.injEq]
      exact ⟨trivial, ih⟩

theorem hasKey_congr {K V W : Type} [DecidableEq K]
    {d1 : List (K × V)} {d2 : List (K × W)} (h : keys d1 = keys d2)
    (k : K) : hasKey d1 k = hasKey d2 k := by
  induction d1 generalizing d2 with
  | nil =>
    cases d2 with
    | nil => rfl
    | cons q t2 => simp [keys] at h
  | cons p t1 ih =>
    cases d2 with
    | nil => simp [keys] at h
    | cons q t2 =>
      obtain ⟨k1, v1⟩ := p
      obtain ⟨k2, w2⟩ := q
      simp only [keys, List.map_cons, List.cons.injEq] at h
      obtain ⟨rfl, ht⟩ := h
      by_cases hk : k1 = k
      · simp [hasKey, get?, hk]
      · simpa [hasKey, get?, hk] using ih ht

end PyDict

namespace telegram_bot

theorem tg_get_or_create_agent_spec (st : TelegramBot) (chat_id : Int) :
    (PyDict.get? st.agents chat_id = none →
        (get_or_create_agent st chat_id).1 = some ⟨st.nextId⟩
        ∧ (get_or_create_agent st chat_id).2.agents
            = PyDict.setKey st.agents chat_id ⟨st.nextId⟩
        ∧ (get_or_create_agent st chat_id).2.nextId = st.nextId + 1)
    ∧ (∀ a, PyDict.get? st.agents chat_id = some a →
        (get_or_create_agent st chat_id).1 = some a
        ∧ (get_or_create_agent st chat_id).2 = st)
    ∧ (∀ k a, PyDict.get? st.agents k = some a →
        PyDict.get? (get_or_create_agent st chat_id).2.agents k = some a) := by
  refine ⟨?_, ?_, ?_⟩
  · intro hn
    have hk : PyDict.hasKey st.agents chat_id = false := by
      simp [PyDict.hasKey, hn]
    simp only [get_or_create_agent, hk, Bool.not_false, if_true]
    refine ⟨PyDict.get?_setKey_self _ _ _, ?_, ?_⟩ <;> trivial
  · intro a ha
    have hk : PyDict.hasKey st.agents chat_id = true := by
      simp [PyDict.hasKey, ha]
    simp only [get_or_create_agent, hk, Bool.not_true, if_false]
    exact ⟨ha, rfl⟩
  · intro k a ha
    by_cases hk : PyDict.hasKey st.agents chat_id
    · simp only [get_or_create_agent, hk, Bool.not_true, if_false]
      exact ha
    · simp only [get_or_create_agent, Bool.eq_false_iff.mpr hk, Bool.not_false, if_true]
      have hne : chat_id ≠ k := by
        intro he
        subst he
        rw [PyDict.hasKey_false_get? (Bool.eq_false_iff.mpr hk)] at ha
        cases ha
      rw [PyDict.get?_setKey_ne _ hne]
      exact ha

end telegram_bot

namespace grpc_server

theorem grpc_get_or_create_agent_spec (st : BrowserCopilotServicer) (session_id : Str)
    (response_queue : Nat) :
    (PyDict.get? st.agents session_id = none →
        (_get_or_create_agent st session_id response_queue).1 = some ⟨st.nextId⟩
        ∧ (_get_or_create_agent st session_id response_queue).2.agents
            = PyDict.setKey st.agents session_id ⟨st.nextId⟩
        ∧ (_get_or_create_agent st session_id response_queue).2.nextId = st.nextId + 1)
    ∧ (∀ a, PyDict.get? st.agents session_id = some a →
        (_get_or_create_agent st session_id response_queue).1 = some a
        ∧ (_get_or_create_agent st session_id response_queue).2.agents = st.agents
        ∧ (_get_or_create_agent st session_id response_queue).2.nextId = st.nextId)
    ∧ (∀ k a, PyDict.get? st.agents k = some a →
        PyDict.get? (_get_or_create_agent st session_id response_queue).2.agents k
          = some a) := by
  refine ⟨?_, ?_, ?_⟩
  · intro hn
    have hk : PyDict.hasKey st.agents session_id = false := by
      simp [PyDict.hasKey, hn]
    simp only [_get_or_create_agent, hk, Bool.not_false, if_true]
    refine ⟨PyDict.get?_setKey_self _ _ _, ?_, ?_⟩ <;> trivial
  · intro a ha
    have hk : PyDict.hasKey st.agents session_id = true := by
      simp [PyDict.hasKey, ha]
    simp only [_get_or_create_agent, hk, Bool.not_true, if_false]
    exact ⟨ha, rfl, rfl⟩
  · intro k a ha
    by_cases hk : PyDict.hasKey st.agents session_id
    · simp only [_get_or_create_agent, hk, Bool.not_true, if_false]
      exact ha
    · simp only [_get_or_create_agent, Bool.eq_false_iff.mpr hk, Bool.not_false, if_true]
      have hne : session_id ≠ k := by
        intro he
        subst he
        rw [PyDict.hasKey_false_get? (Bool.eq_false_iff.mpr hk)] at ha
        cases ha
      rw [PyDict.get?_setKey_ne _ hne]
      exact ha

end grpc_server

namespace rest_server

theorem rest_get_or_create_agent_spec (st : RestServer) (session_id : Str)
    (response_queue : Nat) :
    (PyDict.get? st.agents session_id = none →
        (_get_or_create_agent st session_id response_queue).1 = some ⟨st.nextId⟩
        ∧ (_get_or_create_agent st session_id response_queue).2.agents
            = PyDict.setKey st.agents session_id ⟨st.nextId⟩
        ∧ (_get_or_create_agent st session_id response_queue).2.nextId = st.nextId + 1)
    ∧ (∀ a, PyDict.get? st.agents session_id = some a →
        (_get_or_create_agent st session_id response_queue).1 = some a
        ∧ (_get_or_create_agent st session_id response_queue).2.agents = st.agents
        ∧ (_get_or_create_agent st session_id response_queue).2.nextId = st.nextId)
    ∧ (∀ k a, PyDict.get? st.agents k = some a →
        PyDict.get? (_get_or_create_agent st session_id response_queue).2.agents k
          = some a) := by
  refine ⟨?_, ?_, ?_⟩
  · intro hn
    have hk : PyDict.hasKey st.agents session_id = false := by
      simp [PyDict.hasKey, hn]
    simp only [_get_or_create_agent, hk, Bool.not_false, if_true]
    refine ⟨PyDict.get?_setKey_self _ _ _, ?_, ?_⟩ <;> trivial
  · intro a ha
    have hk : PyDict.hasKey st.agents session_id = true := by
      simp [PyDict.hasKey, ha]
    simp only [_get_or_create_agent, hk, Bool.not_true, if_false]
    exact ⟨ha, rfl, rfl⟩
  · intro k a ha
    by_cases hk : PyDict.hasKey st.agents session_id
    · simp only [_get_or_create_agent, hk, Bool.not_true, if_false]
      exact ha
    · simp only [_get_or_create_agent, Bool.eq_false_iff.mpr hk, Bool.not_false, if_true]
      have hne : session_id ≠ k := by
        intro he
        subst he
        rw [PyDict.hasKey_false_get? (Bool.eq_false_iff.mpr hk)] at ha
        cases ha
      rw [PyDict.get?_setKey_ne _ hne]
      exact ha

end rest_server

/-- C3: for every session key, get-or-create is idempotent on the agent map
of each transport (Telegram chat id, gRPC session id, REST session id): a
missing key stores a newly constructed agent (the fresh identity `nextId`)
under exactly that key; a present key returns the identical stored agent with
the agent map and the freshness counter untouched; and an existing map entry
is never replaced. -/
theorem C3_get_or_create_agent_idempotent :
    (∀ (st : telegram_bot.TelegramBot) (chat_id : Int),
      (PyDict.get? st.agents chat_id = none →
          (telegram_bot.get_or_create_agent st chat_id).1 = some ⟨st.nextId⟩
          ∧ (telegram_bot.get_or_create_agent st chat_id).2.agents
              = PyDict.setKey st.agents chat_id ⟨st.nextId⟩
          ∧ (telegram_bot.get_or_create_agent st chat_id).2.nextId = st.nextId + 1)
      ∧ (∀ a, PyDict.get? st.agents chat_id = some a →
          (telegram_bot.get_or_create_agent st chat_id).1 = some a
          ∧ (telegram_bot.get_or_create_agent st chat_id).2 = st)
      ∧ (∀ k a, PyDict.get? st.agents k = some a →
          PyDict.get? (telegram_bot.get_or_create_agent st chat_id).2.agents k = some a))
    ∧ (∀ (st : grpc_server.BrowserCopilotServicer) (session_id : Str) (q : Nat),
      (PyDict.get? st.agents session_id = none →
          (grpc_server._get_or_create_agent st session_id q).1 = some ⟨st.nextId⟩
          ∧ (grpc_server._get_or_create_agent st session_id q).2.agents
              = PyDict.setKey st.agents session_id ⟨st.nextId⟩
          ∧ (grpc_server._get_or_create_agent st session_id q).2.nextId = st.nextId + 1)
      ∧ (∀ a, PyDict.get? st.agents session_id = some a →
          (grpc_server._get_or_create_agent st session_id q).1 = some a
          ∧ (grpc_server._get_or_create_agent st session_id q).2.agents = st.agents
          ∧ (grpc_server._get_or_create_agent st session_id q).2.nextId = st.nextId)
      ∧ (∀ k a, PyDict.get? st.agents k = some a →
          PyDict.get? (grpc_server._get_or_create_agent st session_id q).2.agents k
            = some a))
    ∧ (∀ (st : rest_server.RestServer) (session_id : Str) (q : Nat),
      (PyDict.get? st.agents session_id = none →
          (rest_server._get_or_create_agent st session_id q).1 = some ⟨st.nextId⟩
          ∧ (rest_server._get_or_create_agent st session_id q).2.agents
              = PyDict.setKey st.agents session_id ⟨st.nextId⟩
          ∧ (rest_server._get_or_create_agent st session_id q).2.nextId = st.nextId + 1)
      ∧ (∀ a, PyDict.get? st.agents session_id = some a →
          (rest_server._get_or_create_agent st session_id q).1 = some a
          ∧ (rest_server._get_or_create_agent st session_id q).2.agents = st.agents
          ∧ (rest_server._get_or_create_agent st session_id q).2.nextId = st.nextId)
      ∧ (∀ k a, PyDict.get? st.agents k = some a →
          PyDict.get? (rest_server._get_or_create_agent st session_id q).2.agents k
            = some a)) :=
  ⟨telegram_bot.tg_get_or_create_agent_spec,
   grpc_server.grpc_get_or_create_agent_spec,
   rest_server.rest_get_or_create_agent_spec⟩

/-- Witness for C3: a first call on an empty Telegram bot stores agent 0 and
a second call returns that same stored agent with the state unchanged; the
gRPC and REST servers behave the same on their initial states. -/
theorem C3_get_or_create_agent_idempotent_witness :
    ((telegram_bot.get_or_create_agent telegram_bot.TelegramBot.init 5).1
        = some ⟨0⟩
      ∧ (telegram_bot.get_or_create_agent
          (telegram_bot.get_or_create_agent telegram_bot.TelegramBot.init 5).2 5).1
        = some ⟨0⟩
      ∧ (telegram_bot.get_or_create_agent
          (telegram_bot.get_or_create_agent telegram_bot.TelegramBot.init 5).2 5).2
        = (telegram_bot.get_or_create_agent telegram_bot.TelegramBot.init 5).2)
    ∧ (grpc_server._get_or_create_agent grpc_server.BrowserCopilotServicer.init
        "s".data 7).1 = some ⟨0⟩
    ∧ (rest_server._get_or_create_agent rest_server.RestServer.init
        "s".data 7).1 = some ⟨0⟩ := by
  refine ⟨⟨?_, ?_, ?_⟩, ?_, ?_⟩
  · exact ((C3_get_or_create_agent_idempotent.1 telegram_bot.TelegramBot.init 5).1 rfl).1
  · exact (((C3_get_or_create_agent_idempotent.1
      (telegram_bot.get_or_create_agent telegram_bot.TelegramBot.init 5).2 5).2.1
      ⟨0⟩ (by rfl)).1)
  · exact (((C3_get_or_create_agent_idempotent.1
      (telegram_bot.get_or_create_agent telegram_bot.TelegramBot.init 5).2 5).2.1
      ⟨0⟩ (by rfl)).2)
  · exact ((C3_get_or_create_agent_idempotent.2.1
      grpc_server.BrowserCopilotServicer.init "s".data 7).1 rfl).1
  · exact ((C3_get_or_create_agent_idempotent.2.2
      rest_server.RestServer.init "s".data 7).1 rfl).1

namespace grpc_server

theorem grpc_get_or_create_agent_keys (st : BrowserCopilotServicer) (session_id : Str)
    (q : Nat) (h : PyDict.keys st.agents = PyDict.keys st.message_senders) :
    PyDict.keys (_get_or_create_agent st session_id q).2.agents
      = PyDict.keys (_get_or_create_agent st session_id q).2.message_senders := by
  by_cases hk : PyDict.hasKey st.agents session_id
  · simp only [_get_or_create_agent, hk, Bool.not_true, if_false]
    simpa [PyDict.keys_modifyVal] using h
  · simp only [_get_or_create_agent, Bool.eq_false_iff.mpr hk, Bool.not_false, if_true]
    exact PyDict.keys_setKey_congr h session_id _ _

theorem grpc_cleanup_session_keys (st : BrowserCopilotServicer) (session_id : Str)
    (h : PyDict.keys st.agents = PyDict.keys st.message_senders) :
    PyDict.keys (cleanup_session st session_id).agents
      = PyDict.keys (cleanup_session st session_id).message_senders := by
  by_cases hk : PyDict.hasKey st.agents session_id
  · have hs : PyDict.hasKey st.message_senders session_id = true := by
      rw [← PyDict.hasKey_congr h]
      exact hk
    simp only [cleanup_session, hk, if_true, hs]
    exact PyDict.keys_delKey_congr h session_id
  · simp only [cleanup_session, Bool.eq_false_iff.mpr hk, Bool.false_eq_true, if_false]
    exact h

end grpc_server

namespace rest_server

theorem rest_get_or_create_agent_keys (st : RestServer) (session_id : Str)
    (q : Nat) (h : PyDict.keys st.agents = PyDict.keys st.message_senders) :
    PyDict.keys (_get_or_create_agent st session_id q).2.agents
      = PyDict.keys (_get_or_create_agent st session_id q).2.message_senders := by
  by_cases hk : PyDict.hasKey st.agents session_id
  · simp only [_get_or_create_agent, hk, Bool.not_true, if_false]
    simpa [PyDict.keys_modifyVal] using h
  · simp only [_get_or_create_agent, Bool.eq_false_iff.mpr hk, Bool.not_false, if_true]
    exact PyDict.keys_setKey_congr h session_id _ _

theorem rest_cleanup_session_keys (st : RestServer) (session_id : Str)
    (h : PyDict.keys st.agents = PyDict.keys st.message_senders) :
    PyDict.keys (cleanup_session st session_id).agents
      = PyDict.keys (cleanup_session st session_id).message_senders := by
  by_cases hk : PyDict.hasKey st.agents session_id
  · have hs : PyDict.hasKey st.message_senders session_id = true := by
      rw [← PyDict.hasKey_congr h]
      exact hk
    simp only [cleanup_session, hk, if_true, hs]
    exact PyDict.keys_delKey_congr h session_id
  · simp only [cleanup_session, Bool.eq_false_iff.mpr hk, Bool.false_eq_true, if_false]
    exact h

end rest_server

/-- C10: in both the gRPC servicer and the REST server, the key set of the
agents dict always equals the key set of the message_senders dict: both start
empty, `_get_or_create_agent` inserts the session key into both or into
neither, and `cleanup_session` removes it from both, so the equality is
preserved by every operation. -/
theorem C10_agents_and_message_senders_share_keys :
    (PyDict.keys grpc_server.BrowserCopilotServicer.init.agents
       = PyDict.keys grpc_server.BrowserCopilotServicer.init.message_senders)
    ∧ (∀ (st : grpc_server.BrowserCopilotServicer) (session_id : Str) (q : Nat),
        PyDict.keys st.agents = PyDict.keys st.message_senders →
        PyDict.keys (grpc_server._get_or_create_agent st session_id q).2.agents
          = PyDict.keys
              (grpc_server._get_or_create_agent st session_id q).2.message_senders)
    ∧ (∀ (st : grpc_server.BrowserCopilotServicer) (session_id : Str),
        PyDict.keys st.agents = PyDict.keys st.message_senders →
        PyDict.keys (grpc_server.cleanup_session st session_id).agents
          = PyDict.keys (grpc_server.cleanup_session st session_id).message_senders)
    ∧ (PyDict.keys rest_server.RestServer.init.agents
       = PyDict.keys rest_server.RestServer.init.message_senders)
    ∧ (∀ (st : rest_server.RestServer) (session_id : Str) (q : Nat),
        PyDict.keys st.agents = PyDict.keys st.message_senders →
        PyDict.keys (rest_server._get_or_create_agent st session_id q).2.agents
          = PyDict.keys
              (rest_server._get_or_create_agent st session_id q).2.message_senders)
    ∧ (∀ (st : rest_server.RestServer) (session_id : Str),
        PyDict.keys st.agents = PyDict.keys st.message_senders →
        PyDict.keys (rest_server.cleanup_session st session_id).agents
          = PyDict.keys (rest_server.cleanup_session st session_id).message_senders) :=
  ⟨rfl, grpc_server.grpc_get_or_create_agent_keys, grpc_server.grpc_cleanup_session_keys,
   rfl, rest_server.rest_get_or_create_agent_keys, rest_server.rest_cleanup_session_keys⟩

/-- Witness for C10: creating a session on the freshly initialised servers
keeps the two key sets equal, and so does cleaning that session up again. -/
theorem C10_agents_and_message_senders_share_keys_witness :
    (PyDict.keys (grpc_server._get_or_create_agent
        grpc_server.BrowserCopilotServicer.init "s".data 3).2.agents
      = PyDict.keys (grpc_server._get_or_create_agent
          grpc_server.BrowserCopilotServicer.init "s".data 3).2.message_senders)
    ∧ (PyDict.keys (rest_server.cleanup_session
        (rest_server._get_or_create_agent
          rest_server.RestServer.init "s".data 3).2 "s".data).agents
      = PyDict.keys (rest_server.cleanup_session
          (rest_server._get_or_create_agent
            rest_server.RestServer.init "s".data 3).2 "s".data).message_senders) :=
  ⟨C10_agents_and_message_senders_share_keys.2.1
      grpc_server.BrowserCopilotServicer.init "s".data 3 rfl,
   C10_agents_and_message_senders_share_keys.2.2.2.2.2
      (rest_server._get_or_create_agent rest_server.RestServer.init "s".data 3).2
      "s".data
      (C10_agents_and_message_senders_share_keys.2.2.2.2.1
        rest_server.RestServer.init "s".data 3 rfl)⟩

namespace pystr

theorem pySplitChar_ne_nil (sep : Char) (s : Str) : pySplitChar sep s ≠ [] := by
  cases s with
  | nil => simp [pySplitChar]
  | cons c rest =>
    simp only [pySplitChar]
    cases pySplitChar sep rest with
    | nil => simp
    | cons h t =>
      by_cases hc : c = sep <;> simp [hc]

theorem pySplitChar_no_sep {sep : Char} {s : Str} (h : sep ∉ s) :
    pySplitChar sep s = [s] := by
  induction s with
  | nil => rfl
  | cons c rest ih =>
    have hc : c ≠ sep := fun he => h (he ▸ List.mem_cons_self c rest)
    have hr : sep ∉ rest := fun hm => h (List.mem_cons_of_mem c hm)
    simp [pySplitChar, ih hr, hc]

theorem pySplitChar_append {sep : Char} {p : Str} (h : sep ∉ p) (rest : Str) :
    pySplitChar sep (p ++ sep :: rest) = p :: pySplitChar sep rest := by
  induction p with
  | nil =>
    simp only [List.nil_append, pySplitChar]
    cases hr : pySplitChar sep rest with
    | nil => exact absurd hr (pySplitChar_ne_nil sep rest)
    | cons a t => simp
  | cons c p' ih =>
    have hc : c ≠ sep := fun he => h (he ▸ List.mem_cons_self c p')
    have hp : sep ∉ p' := fun hm => h (List.mem_cons_of_mem c hm)
    rw [List.cons_append]
    simp only [pySplitChar, ih hp]
    simp [hc]

theorem joinWithSlash_cons_cons (c : Char) (h : Str) (t : List Str) :
    joinWithSlash ((c :: h) :: t) = c :: joinWithSlash (h :: t) := by
  cases t <;> simp [joinWithSlash]

theorem joinWithSlash_pySplitChar (s : Str) :
    joinWithSlash (pySplitChar '/' s) = s := by
  induction s with
  | nil => rfl
  | cons c rest ih =>
    obtain ⟨h, t, hr⟩ : ∃ h t, pySplitChar '/' rest = h :: t := by
      cases hpc : pySplitChar '/' rest with
      | nil => exact absurd hpc (pySplitChar_ne_nil '/' rest)
      | cons a b => exact ⟨a, b, rfl⟩
    rw [hr] at ih
    simp only [pySplitChar, hr]
    by_cases hc : c = '/'
    · subst hc
      simp [joinWithSlash, ih]
    · simp only [if_neg hc]
      rw [joinWithSlash_cons_cons, ih]

end pystr

/-- C5: for every image path that does not exist, `send_image` on each
message sender (gRPC, SSE, Telegram) emits no image item on its transport and
instead delivers, through its `send_text` path, the text
`⚠️ Image was generated but file not found: ` followed by the path; an image
item is emitted only when the file exists. -/
theorem C5_send_image_missing_file (fs : Str → Bool) (image_path : Str) :
    (fs image_path = false →
      grpc_message_sender.send_image fs image_path
        = grpc_message_sender.send_text
            ("⚠️ Image was generated but file not found: ".data ++ image_path)
      ∧ browser_copilot.SSEMessageSender.send_image fs image_path
        = browser_copilot.SSEMessageSender.send_text
            ("⚠️ Image was generated but file not found: ".data ++ image_path)
      ∧ telegram_message_sender.send_image fs image_path
        = telegram_message_sender.send_text
            ("⚠️ Image was generated but file not found: ".data ++ image_path))
    ∧ (∀ fp d, grpc_message_sender.GrpcItem.imageItem fp d
          ∈ grpc_message_sender.send_image fs image_path → fs image_path = true)
    ∧ (∀ fp d, browser_copilot.SSEItem.imageItem fp d
          ∈ browser_copilot.SSEMessageSender.send_image fs image_path →
            fs image_path = true)
    ∧ (∀ fp, telegram_message_sender.TgCall.send_photo fp
          ∈ telegram_message_sender.send_image fs image_path →
            fs image_path = true) := by
  refine ⟨?_, ?_, ?_, ?_⟩
  · intro h
    refine ⟨?_, ?_, ?_⟩ <;>
      simp [grpc_message_sender.send_image, browser_copilot.SSEMessageSender.send_image,
        telegram_message_sender.send_image, h]
  · intro fp d hm
    by_cases h : fs image_path
    · exact h
    · simp [grpc_message_sender.send_image, grpc_message_sender.send_text,
        Bool.eq_false_iff.mpr h] at hm
  · intro fp d hm
    by_cases h : fs image_path
    · exact h
    · simp [browser_copilot.SSEMessageSender.send_image,
        browser_copilot.SSEMessageSender.send_text, Bool.eq_false_iff.mpr h] at hm
  · intro fp hm
    by_cases h : fs image_path
    · exact h
    · simp [telegram_message_sender.send_image, telegram_message_sender.send_text,
        Bool.eq_false_iff.mpr h] at hm

/-- Witness for C5 on an absent file. -/
theorem C5_send_image_missing_file_witness :
    grpc_message_sender.send_image (fun _ => false) "x.png".data
      = grpc_message_sender.send_text
          ("⚠️ Image was generated but file not found: ".data ++ "x.png".data)
    ∧ browser_copilot.SSEMessageSender.send_image (fun _ => false) "x.png".data
      = browser_copilot.SSEMessageSender.send_text
          ("⚠️ Image was generated but file not found: ".data ++ "x.png".data)
    ∧ telegram_message_sender.send_image (fun _ => false) "x.png".data
      = telegram_message_sender.send_text
          ("⚠️ Image was generated but file not found: ".data ++ "x.png".data) :=
  (C5_send_image_missing_file (fun _ => false) "x.png".data).1 rfl

/-- C6: `execute_browser_task` returns exactly `execute_goal_step` on every
task and usage value, and `execute_goal_step` returns the agent run's output
when one is produced (a truthy, i.e. non-empty, output) and the fixed
`No result from browser interaction` text when the run produces no output. -/
theorem C6_execute_browser_task_delegates {U : Type}
    (self : browser_interaction_agent.BrowserInteractionAgent U)
    (task : Str) (usage : U) :
    browser_interaction_agent.execute_browser_task self task usage
      = browser_interaction_agent.execute_goal_step self task usage
    ∧ (∀ run, self.agent = some run →
        (∀ output,
          run (browser_interaction_agent.step_prompt task) usage = some output →
          output ≠ [] →
          browser_interaction_agent.execute_goal_step self task usage = output)
        ∧ (run (browser_interaction_agent.step_prompt task) usage = none →
          browser_interaction_agent.execute_goal_step self task usage
            = "No result from browser interaction".data)) := by
  refine ⟨rfl, ?_⟩
  intro run hr
  constructor
  · intro output ho hne
    simp [browser_interaction_agent.execute_goal_step, hr, ho, hne]
  · intro ho
    simp [browser_interaction_agent.execute_goal_step, hr, ho]

/-- Witness for C6 on a one-step run returning "done". -/
theorem C6_execute_browser_task_delegates_witness :
    browser_interaction_agent.execute_goal_step
      (⟨some fun _ _ => some "done".data⟩ :
        browser_interaction_agent.BrowserInteractionAgent Nat)
      "task".data 0 = "done".data :=
  ((C6_execute_browser_task_delegates
      (⟨some fun _ _ => some "done".data⟩ :
        browser_interaction_agent.BrowserInteractionAgent Nat)
      "task".data 0).2 _ rfl).1 "done".data rfl (by decide)

namespace telegram_message_sender

theorem escape_eq_nil {t : Str} (h : _escape_markdown_v2 t = []) : t = [] := by
  cases t with
  | nil => rfl
  | cons c r =>
    by_cases hc : isEscapeChar c <;> simp [_escape_markdown_v2, hc] at h

theorem escape_cons_special {c : Char} (t : Str) (hc : isEscapeChar c = true) :
    _escape_markdown_v2 (c :: t) = '\\' :: c :: _escape_markdown_v2 t := by
  simp [_escape_markdown_v2, hc]

theorem escape_cons_plain {c : Char} (t : Str) (hc : isEscapeChar c = false) :
    _escape_markdown_v2 (c :: t) = c :: _escape_markdown_v2 t := by
  simp [_escape_markdown_v2, hc]

theorem escape_head_not_special {xs : Str} {d : Char} {rest : Str}
    (h : _escape_markdown_v2 xs = d :: rest) : isEscapeChar d = false := by
  cases xs with
  | nil => simp [_escape_markdown_v2] at h
  | cons c t =>
    by_cases hc : isEscapeChar c
    · rw [escape_cons_special t hc] at h
      cases h
      decide
    · rw [escape_cons_plain t (Bool.eq_false_iff.mpr hc)] at h
      cases h
      exact Bool.eq_false_iff.mpr hc

theorem stripEscapes_escape (s : Str) :
    stripEscapes (_escape_markdown_v2 s) = s := by
  induction s with
  | nil => rfl
  | cons c t ih =>
    by_cases hc : isEscapeChar c
    · rw [escape_cons_special t hc]
      rw [show stripEscapes ('\\' :: c :: _escape_markdown_v2 t)
          = c :: stripEscapes (_escape_markdown_v2 t) from by simp [stripEscapes, hc]]
      rw [ih]
    · rw [escape_cons_plain t (Bool.eq_false_iff.mpr hc)]
      cases hx : _escape_markdown_v2 t with
      | nil =>
        have ht := escape_eq_nil hx
        subst ht
        rfl
      | cons d rest' =>
        rw [show stripEscapes (c :: d :: rest') = c :: stripEscapes (d :: rest') from by
          simp [stripEscapes, escape_head_not_special hx]]
        rw [← hx, ih]

theorem escape_length (s : Str) :
    (_escape_markdown_v2 s).length = s.length + s.countP isEscapeChar := by
  induction s with
  | nil => rfl
  | cons c t ih =>
    by_cases hc : isEscapeChar c
    · rw [escape_cons_special t hc]
      simp [List.countP_cons, hc, ih]
      omega
    · rw [escape_cons_plain t (Bool.eq_false_iff.mpr hc)]
      simp [List.countP_cons, Bool.eq_false_iff.mpr hc, ih]
      omega

theorem escape_append (a b : Str) :
    _escape_markdown_v2 (a ++ b) = _escape_markdown_v2 a ++ _escape_markdown_v2 b := by
  simp [_escape_markdown_v2]

end telegram_message_sender

/-- C9: `_escape_markdown_v2` prefixes every occurrence of a MarkdownV2
special character with a single backslash and leaves every other character
(pre-existing backslashes included) unchanged: it maps string concatenation
to concatenation, a special one-character string to backslash-then-character
and any other one-character string to itself; the output length is the input
length plus the number of special characters; deleting each inserted
backslash (`stripEscapes`) recovers the original string, so the escaping is
injective. -/
theorem C9_escape_markdown_v2_spec :
    (∀ text : Str, (telegram_message_sender._escape_markdown_v2 text).length
        = text.length + text.countP telegram_message_sender.isEscapeChar)
    ∧ (∀ text : Str, telegram_message_sender.stripEscapes
        (telegram_message_sender._escape_markdown_v2 text) = text)
    ∧ Function.Injective telegram_message_sender._escape_markdown_v2
    ∧ (∀ a b : Str, telegram_message_sender._escape_markdown_v2 (a ++ b)
        = telegram_message_sender._escape_markdown_v2 a
          ++ telegram_message_sender._escape_markdown_v2 b)
    ∧ (∀ c : Char, telegram_message_sender.isEscapeChar c = true →
        telegram_message_sender._escape_markdown_v2 [c] = ['\\', c])
    ∧ (∀ c : Char, telegram_message_sender.isEscapeChar c = false →
        telegram_message_sender._escape_markdown_v2 [c] = [c]) := by
  refine ⟨telegram_message_sender.escape_length,
    telegram_message_sender.stripEscapes_escape, ?_,
    telegram_message_sender.escape_append, ?_, ?_⟩
  · intro a b h
    have h2 := congrArg telegram_message_sender.stripEscapes h
    rwa [telegram_message_sender.stripEscapes_escape,
      telegram_message_sender.stripEscapes_escape] at h2
  · intro c hc
    simp [telegram_message_sender._escape_markdown_v2, hc]
  · intro c hc
    simp [telegram_message_sender._escape_markdown_v2, hc]

/-- Witness for C9 at an underscore, a plain character and a concrete round
trip. -/
theorem C9_escape_markdown_v2_spec_witness :
    telegram_message_sender._escape_markdown_v2 ['_'] = ['\\', '_']
    ∧ telegram_message_sender._escape_markdown_v2 ['x'] = ['x']
    ∧ "a!".data = "a!".data :=
  ⟨C9_escape_markdown_v2_spec.2.2.2.2.1 '_' (by decide),
   C9_escape_markdown_v2_spec.2.2.2.2.2 'x' (by decide),
   C9_escape_markdown_v2_spec.2.2.1
     (rfl : telegram_message_sender._escape_markdown_v2 "a!".data
        = telegram_message_sender._escape_markdown_v2 "a!".data)⟩

/-- C8: `get_model` raises `ValueError` with a message starting
`Invalid model name format` on every name without a `/`, raises `ValueError`
with a message starting `Unknown provider` when the part before the first `/`
is none of openrouter, google, anthropic, and for an accepted provider builds
the model from the remainder of the name with any further `/` separators
preserved. -/
theorem C8_get_model_spec :
    (∀ s : Str, '/' ∉ s →
       ∃ t, model_config.get_model s
         = .error ("Invalid model name format".data ++ t))
    ∧ (∀ p rest : Str, '/' ∉ p →
        ((p ≠ "openrouter".data ∧ p ≠ "google".data ∧ p ≠ "anthropic".data) →
          ∃ t, model_config.get_model (p ++ '/' :: rest)
            = .error ("Unknown provider".data ++ t))
        ∧ (p = "openrouter".data →
            model_config.get_model (p ++ '/' :: rest)
              = .ok (.openAIModel rest))
        ∧ (p = "google".data →
            model_config.get_model (p ++ '/' :: rest)
              = .ok (.geminiModel rest))
        ∧ (p = "anthropic".data →
            model_config.get_model (p ++ '/' :: rest)
              = .ok (.anthropicModel rest))) := by
  constructor
  · intro s h
    refine ⟨": ".data ++ s ++ ". Expected format: 'provider/model_name'.".data, ?_⟩
    have hs := pystr.pySplitChar_no_sep h
    simp only [model_config.get_model, hs, List.length_cons, List.length_nil]
    rw [if_pos (by omega)]
    simp [List.append_assoc]
  · intro p rest h
    have hsplit := pystr.pySplitChar_append h rest
    have hne := pystr.pySplitChar_ne_nil '/' rest
    have hlen : ¬ (pystr.pySplitChar '/' (p ++ '/' :: rest)).length < 2 := by
      rw [hsplit]
      cases hq : pystr.pySplitChar '/' rest with
      | nil => exact absurd hq hne
      | cons a b => simp
    have hprov : (pystr.pySplitChar '/' (p ++ '/' :: rest)).headD [] = p := by
      rw [hsplit]
      rfl
    have hname :
        pystr.joinWithSlash (pystr.pySplitChar '/' (p ++ '/' :: rest)).tail = rest := by
      rw [hsplit, List.tail_cons]
      exact pystr.joinWithSlash_pySplitChar rest
    refine ⟨?_, ?_, ?_, ?_⟩
    · rintro ⟨h1, h2, h3⟩
      refine ⟨": ".data ++ p, ?_⟩
      simp only [model_config.get_model, if_neg hlen, hprov, hname,
        if_neg h1, if_neg h2, if_neg h3]
      simp [List.append_assoc]
    · intro h1
      subst h1
      simp only [model_config.get_model, if_neg hlen, hprov, hname]
      simp
    · intro h1
      subst h1
      simp only [model_config.get_model, if_neg hlen, hprov, hname]
      simp
    · intro h1
      subst h1
      simp only [model_config.get_model, if_neg hlen, hprov, hname]
      simp

/-- Witness for C8: a separatorless name, an unknown provider, and an
openrouter model whose name keeps its inner slash. -/
theorem C8_get_model_spec_witness :
    (∃ t, model_config.get_model "test-model".data
       = .error ("Invalid model name format".data ++ t))
    ∧ (∃ t, model_config.get_model ("unknown".data ++ '/' :: "model-name".data)
       = .error ("Unknown provider".data ++ t))
    ∧ model_config.get_model ("openrouter".data ++ '/' :: "a/b".data)
       = .ok (.openAIModel "a/b".data) :=
  ⟨C8_get_model_spec.1 "test-model".data (by decide),
   (C8_get_model_spec.2 "unknown".data "model-name".data (by decide)).1
     (by refine ⟨?_, ?_, ?_⟩ <;> decide),
   (C8_get_model_spec.2 "openrouter".data "a/b".data (by decide)).2.1 rfl⟩
